import Mathlib

/-!
Verification of the `binder` build/bindings-generation scripts.

This file gives a shallow embedding of the two Python source files of the
repository, `build.py` (the staged dependency-installation orchestrator) and
`make_bindings_via_cmake.py` (the binding-generation pipeline), and proves or
refutes the frozen specification claims about them.

Modelling conventions:
- Python strings are Lean `String`s; Python `str.strip`, `str.startswith`,
  `str.endswith`, `in` (substring test) and `str.replace` over single
  characters are re-implemented below as executable Lean functions over the
  character list of the string.
- Python string comparison (used by `list.sort()`) is lexicographic by code
  point; `strLe` below is that order, and sorting is embedded as
  `List.insertionSort strLe` (extensionally the sorted permutation, which any
  correct sort — including CPython's — produces for a total order).
- Filesystem and external processes are modelled by a small world state of
  booleans (which directories exist) plus an event trace: every external
  command or file write performed by the scripts appends one event, and a
  raised `RuntimeError` sets an error that aborts the rest of the run.
- Exit statuses of external commands that the code inspects are modelled as
  succeeding (the claims under study are about control flow, not about
  external failures), except in `compile_sources`, where the code does NOT
  inspect them; there they are inputs recorded in the trace.
-/

/-- Python `str.strip()`: remove whitespace from both ends. -/
def pyStrip (s : String) : String :=
  ⟨((s.data.dropWhile (·.isWhitespace)).reverse.dropWhile (·.isWhitespace)).reverse⟩

/-- Python `s.startswith(pre)`. -/
def pyStartswith (s pre : String) : Bool := pre.data.isPrefixOf s.data

/-- Python `s.endswith(suf)`. -/
def pyEndswith (s suf : String) : Bool := suf.data.isSuffixOf s.data

/-- Does `needle` occur as a contiguous run inside the character list? -/
def sublistSearch (needle : List Char) : List Char → Bool
  | [] => needle.isEmpty
  | c :: t => needle.isPrefixOf (c :: t) || sublistSearch needle t

/-- Python `needle in hay` for strings. -/
def pyIn (needle hay : String) : Bool := sublistSearch needle.data hay.data

/-- Python `s.replace(a, b)` for single-character `a`, `b`. -/
def replaceChar (s : String) (a b : Char) : String :=
  ⟨s.data.map (fun c => if c = a then b else c)⟩

/-- Lexicographic (code-point) comparison of character lists: Python `<=` on `str`. -/
def pyStrLeList : List Char → List Char → Bool
  | [], _ => true
  | _ :: _, [] => false
  | a :: as, b :: bs => if a = b then pyStrLeList as bs else decide (a < b)

/-- Python string order, as a decidable relation on `String`. -/
def strLe (a b : String) : Prop := pyStrLeList a.data b.data = true

instance : DecidableRel strLe := fun _ _ => inferInstanceAs (Decidable (_ = true))

namespace BuildPy

/-! Embedding of `build.py`. -/

def SUPPORTED_PYBIND11_SHA : String := "32c4d7e17f267e10e71138a78d559b1eef17c909"

def ALLOWED_BUILD_MODES : List String := ["Release", "Debug", "MinSizeRel", "RelWithDebInfo"]

def KNOWN_COMPILERS : List (String × String × String) :=
  [("clang", "clang", "clang++"), ("gcc", "gcc", "g++")]

def SUGGESTED_LLVM_RELEASE : String := "llvmorg-13.0.1"

def SUGGESTED_BINDER_BRANCH : String := "master"

/-- `VersionOrSourceLocation`: a resolved choice between a pinned version and a
local source path (`build.py` lines 76-93). -/
structure VersionOrSourceLocation where
  version : String
  source_location : String
deriving DecidableEq

/-- `VersionOrSourceLocation.__init__`: the constructor raises a `RuntimeError`
when both fields are truthy (non-empty), and when neither is. -/
def VersionOrSourceLocation.mk? (version source_location : String) :
    Except String VersionOrSourceLocation :=
  if version ≠ "" ∧ source_location ≠ "" then
    Except.error "Must have only version OR source_location, not both"
  else if version = "" ∧ source_location = "" then
    Except.error "Must have only version OR source_location, not neither"
  else Except.ok ⟨version, source_location⟩

/-- `VersionOrSourceLocation.get_id`. -/
def VersionOrSourceLocation.get_id (v : VersionOrSourceLocation) : String :=
  if v.version ≠ "" then v.version else "FROM_SOURCE_" ++ v.source_location

/-- `CompileOptions` after a successful `__init__`: the compiler family, build
mode, and the resolved `cc`/`cpp` pair from `KNOWN_COMPILERS`. -/
structure CompileOptions where
  compiler : String
  build_mode : String
  cc : String
  cpp : String
deriving DecidableEq

/-- `CompileOptions.cmake_extra_commands_from_known_compiler_paths`. -/
def cmake_extra_commands_from_known_compiler_paths
    (full_cc full_cpp build_mode : String) : String :=
  String.intercalate " "
    ((if full_cc ≠ "" then ["-DCMAKE_C_COMPILER=" ++ full_cc] else []) ++
     (if full_cpp ≠ "" then ["-DCMAKE_CXX_COMPILER=" ++ full_cpp] else []) ++
     (if build_mode ≠ "" then ["-DCMAKE_BUILD_TYPE=" ++ build_mode] else []))

/-- `self.cmake_extra_commands`, computed in `CompileOptions.__init__`. -/
def CompileOptions.cmake_extra_commands (c : CompileOptions) : String :=
  cmake_extra_commands_from_known_compiler_paths c.cc c.cpp c.build_mode

/-- `CompileOptions.__init__`: validates the build mode against
`ALLOWED_BUILD_MODES` and the compiler against `KNOWN_COMPILERS`. -/
def CompileOptions.mk? (compiler build_mode : String) : Except String CompileOptions :=
  if build_mode ∈ ALLOWED_BUILD_MODES then
    match KNOWN_COMPILERS.find? (fun p => p.1 == compiler) with
    | some (_, cc, cpp) => Except.ok ⟨compiler, build_mode, cc, cpp⟩
    | none => Except.error ("Compiler " ++ compiler ++ " not supported")
  else Except.error ("Build mode " ++ build_mode ++ " not supported")

/-- One observable action of `build.py`: an external command, copy, or file
write, with one constructor per call site. -/
inductive Ev where
  | gitCloneBinder (branch dest : String)
  | gitCloneLLVM (version dest : String)
  | copyLLVMTree (src dest : String)
  | stageBinderSources (src dest : String)
  | appendCMakeLists (path text : String)
  | copyPybindTree (src dest : String)
  | mkdirPybind (path : String)
  | pybindGitStep (command : String)
  | cmakeConfigure (build_dir command : String)
  | ninjaRun (build_dir command : String)
  | mkdirLdconf (path : String)
  | writeLdconf (path content : String)
  | runLdconfig (cwd : String)
  | writeEnvfile (path content : String)
deriving DecidableEq

def Ev.isCmakeConfigure : Ev → Bool
  | .cmakeConfigure _ _ => true
  | _ => false

def Ev.isStageBinderSources : Ev → Bool
  | .stageBinderSources _ _ => true
  | _ => false

def Ev.isGitCloneBinder : Ev → Bool
  | .gitCloneBinder _ _ => true
  | _ => false

/-- The parts of the filesystem the scripts branch on. -/
structure World where
  /-- `Path(binder_source_directory).is_dir()` -/
  binderSourcePresent : Bool
  /-- `Path(llvm base_source_directory).is_dir()` -/
  llvmTreePresent : Bool
  /-- `Path(pybind11 include_dir).is_dir()` -/
  pybindIncludePresent : Bool
  /-- whether the pybind11 fetch/copy actually produces the include directory
  (the code re-checks existence after downloading) -/
  pybindIncludeAfterFetch : Bool
deriving DecidableEq

/-- Run state: world + event trace + pending `RuntimeError`. -/
structure RunSt where
  world : World
  trace : List Ev
  err : Option String
deriving DecidableEq

def RunSt.emit (s : RunSt) (e : Ev) : RunSt := { s with trace := s.trace ++ [e] }

def RunSt.fail (s : RunSt) (msg : String) : RunSt := { s with err := some msg }

/-- Sequence a step after `s`; a raised error aborts everything downstream. -/
def RunSt.seq (s : RunSt) (f : RunSt → RunSt) : RunSt := if s.err.isSome then s else f s

/-- `Pybind11Installer` (class attribute `_git_remote` at its default). -/
def pybind11_git_remote : String := "https://github.com/RosettaCommons/pybind11.git"

structure Pybind11Installer where
  github_sha_or_source_location : VersionOrSourceLocation
  base_source_directory : String
deriving DecidableEq

/-- `self.include_dir`, computed in `Pybind11Installer.__init__`. -/
def Pybind11Installer.include_dir (p : Pybind11Installer) : String :=
  p.base_source_directory ++ "/include"

/-- `Pybind11Installer._prepare`: skip everything if the include directory
exists; otherwise copy the local tree or fetch the pinned sha with git, then
re-check that the include directory exists, raising if not. -/
def Pybind11Installer._prepare (p : Pybind11Installer) (s : RunSt) : RunSt :=
  if s.world.pybindIncludePresent then s
  else
    let s :=
      if p.github_sha_or_source_location.source_location ≠ "" then
        s.emit (.copyPybindTree p.github_sha_or_source_location.source_location
          p.base_source_directory)
      else
        ((((s.emit (.mkdirPybind p.base_source_directory)).emit
          (.pybindGitStep "git init")).emit
          (.pybindGitStep ("git remote add origin " ++ pybind11_git_remote))).emit
          (.pybindGitStep ("git fetch --depth 1 origin " ++
            p.github_sha_or_source_location.version))).emit
          (.pybindGitStep "git checkout FETCH_HEAD")
    let s : RunSt :=
      { s with world := { s.world with pybindIncludePresent := s.world.pybindIncludeAfterFetch } }
    if s.world.pybindIncludePresent then s
    else s.fail ("Error downloading pybind11, unable to find path " ++ p.include_dir)

/-- `Pybind11Installer._install`: no work, just the environment-descriptor
contributions (two f-strings). -/
def Pybind11Installer._install (p : Pybind11Installer) : List String :=
  ["PYBIND11_INCLUDE_DIR=" ++ p.include_dir,
   "PYBIND11_SHA=" ++ p.github_sha_or_source_location.get_id]

/-- `LLVMInstall` class attribute `_git_remote` at its default. -/
def llvm_git_remote : String := "https://github.com/llvm/llvm-project.git"

/-- `LLVMInstall` with all the path fields computed in `__init__`.
`build_dir` is mutable in the Python class (reassigned inside `_install`);
the other derived paths are fixed at construction. -/
structure LLVMInstall where
  version_or_source_location : VersionOrSourceLocation
  compiler : CompileOptions
  binder_source_directory : String
  base_source_directory : String
  build_subdir : String
  install_cpus : Nat
  build_dir : String
  build_bin_dir : String
  clang_tools_extra_subdir : String
  clang_tools_extra_subdir_cmakelists : String
  binder_clang_tools_extra_subdir : String
deriving DecidableEq

/-- `LLVMInstall.__init__`: derive all the path fields. -/
def LLVMInstall.make (v : VersionOrSourceLocation) (c : CompileOptions)
    (binder_source_directory : String) (base_source_directory : String)
    (build_subdir : String) (install_cpus : Nat) : LLVMInstall :=
  { version_or_source_location := v
    compiler := c
    binder_source_directory := binder_source_directory
    base_source_directory := base_source_directory
    build_subdir := build_subdir
    install_cpus := install_cpus
    build_dir := base_source_directory ++ "/" ++ build_subdir
    build_bin_dir := base_source_directory ++ "/" ++ build_subdir ++ "/bin"
    clang_tools_extra_subdir := base_source_directory ++ "/clang-tools-extra"
    clang_tools_extra_subdir_cmakelists :=
      base_source_directory ++ "/clang-tools-extra/CMakeLists.txt"
    binder_clang_tools_extra_subdir :=
      base_source_directory ++ "/clang-tools-extra/binder" }

/-- The cmake invocation built in `LLVMInstall._run_llvm_cmake_base_command`. -/
def llvmCmakeBaseCommand (build_dir cmake_extra_commands : String) : String :=
  "cmake llvm -B " ++ build_dir ++ " -G Ninja " ++ cmake_extra_commands ++
  " -DLLVM_ENABLE_LIBCXX=ON -DLLVM_INCLUDE_TESTS=OFF -DLLVM_ENABLE_RUNTIMES=\x27libc;libcxx;libcxxabi\x27 -DLLVM_ENABLE_PROJECTS=\x27clang-tools-extra;clang\x27 -DLLVM_ENABLE_EH=1 -DLLVM_ENABLE_RTTI=ON"

/-- `LLVMInstall._run_llvm_cmake_base_command` (the external command succeeds
in this model). -/
def LLVMInstall._run_llvm_cmake_base_command (l : LLVMInstall)
    (cmake_extra_commands : String) (s : RunSt) : RunSt :=
  s.emit (.cmakeConfigure l.build_dir (llvmCmakeBaseCommand l.build_dir cmake_extra_commands))

/-- `LLVMInstall._run_ninja_build_and_install_command`: the plain build, then
the install of the curated target subset. -/
def LLVMInstall._run_ninja_build_and_install_command (l : LLVMInstall) (s : RunSt) : RunSt :=
  (s.emit (.ninjaRun l.build_dir ("ninja -j " ++ toString l.install_cpus))).emit
    (.ninjaRun l.build_dir
      ("ninja install-clang-resource-headers install-cxx install-cxxabi install-clang tools/clang/tools/extra/binder/install install-clang-headers  -j " ++
        toString l.install_cpus))

/-- `LLVMInstall._setup_ldconfig_path`: write the runtime library path under
`/etc/ld.so.conf.d` and run `ldconfig`. -/
def LLVMInstall._setup_ldconfig_path (l : LLVMInstall) (s : RunSt) : RunSt :=
  ((s.emit (.mkdirLdconf "/etc/ld.so.conf.d")).emit
    (.writeLdconf "/etc/ld.so.conf.d/libc2.conf"
      "/usr/local/lib/x86_64-unknown-linux-gnu")).emit (.runLdconfig l.build_dir)

/-- `LLVMInstall._prepare`: raise if the binder source tree is absent; if the
llvm tree is absent, copy or clone it, stage the binder sources into
`clang-tools-extra`, and patch that `CMakeLists.txt`. -/
def LLVMInstall._prepare (l : LLVMInstall) (s : RunSt) : RunSt :=
  if ¬ s.world.binderSourcePresent then
    s.fail "Cannot install llvm without binder, unable to find binder source"
  else if s.world.llvmTreePresent then s
  else
    let s :=
      if l.version_or_source_location.source_location ≠ "" then
        s.emit (.copyLLVMTree l.version_or_source_location.source_location
          l.base_source_directory)
      else
        s.emit (.gitCloneLLVM l.version_or_source_location.version l.base_source_directory)
    let s := s.emit (.stageBinderSources l.binder_source_directory
      l.binder_clang_tools_extra_subdir)
    let s := s.emit (.appendCMakeLists l.clang_tools_extra_subdir_cmakelists
      "\nadd_subdirectory(binder)\n")
    { s with world := { s.world with llvmTreePresent := true } }

/-- `LLVMInstall._install`: first pass with the caller-supplied compiler pair,
ninja build+install, ldconfig registration, then a second configure+build in
`build_dir + "2"` with the compiler pair forced to `clang`/`clang++`.
The returned environment lines are VERBATIM the two strings from line 318 of
`build.py`: the `return` statement there lacks the `f` prefix, so the
placeholders are never interpolated (and `self.version` is not even an
attribute of the class). -/
def LLVMInstall._install (l : LLVMInstall) (s : RunSt) : RunSt × List String :=
  let s := l._run_llvm_cmake_base_command l.compiler.cmake_extra_commands s
  let s := l._run_ninja_build_and_install_command s
  let s := l._setup_ldconfig_path s
  let l2 : LLVMInstall := { l with build_dir := l.build_dir ++ "2" }
  let s := l2._run_llvm_cmake_base_command
    (cmake_extra_commands_from_known_compiler_paths "clang" "clang++" l.compiler.build_mode) s
  let s := l2._run_ninja_build_and_install_command s
  (s, ["LLVM_BIN_DIR=\x7bself.build_bin_dir\x7d", "LLVM_VERSION=\x7bself.version\x7d"])

/-- `MasterBinderInstaller` class attribute `_git_remote` at its default. -/
def binder_git_remote : String := "https://github.com/RosettaCommons/binder.git"

structure MasterBinderInstaller where
  binder_branch_or_source_location : VersionOrSourceLocation
  llvm_version_or_source_location : VersionOrSourceLocation
  pybind11_sha_or_source_location : VersionOrSourceLocation
  build_dir : String
  compiler : CompileOptions
  install_cpus : Nat
deriving DecidableEq

def MasterBinderInstaller.binder_download_dir (m : MasterBinderInstaller) : String :=
  m.build_dir ++ "/binder"

/-- The `binder_source_directory` local computed in
`MasterBinderInstaller.__init__`. -/
def MasterBinderInstaller.binder_source_directory (m : MasterBinderInstaller) : String :=
  if m.binder_branch_or_source_location.version ≠ "" then
    m.binder_download_dir ++ "/source"
  else m.binder_branch_or_source_location.source_location ++ "/source"

def MasterBinderInstaller.llvm_installer (m : MasterBinderInstaller) : LLVMInstall :=
  LLVMInstall.make m.llvm_version_or_source_location m.compiler m.binder_source_directory
    (m.build_dir ++ "/llvm-project") "build" m.install_cpus

def MasterBinderInstaller.pybind11_installer (m : MasterBinderInstaller) : Pybind11Installer :=
  ⟨m.pybind11_sha_or_source_location, m.build_dir ++ "/pybind11"⟩

def MasterBinderInstaller.envfile (m : MasterBinderInstaller) : String :=
  m.build_dir ++ "/ENVFILE"

/-- `MasterBinderInstaller._prepare`: in branch mode, git-clone binder
(UNCONDITIONALLY — there is no existence check for this clone), then prepare
pybind11 and llvm. A successful clone materializes the binder source tree. -/
def MasterBinderInstaller._prepare (m : MasterBinderInstaller) (s : RunSt) : RunSt :=
  let s :=
    if m.binder_branch_or_source_location.version ≠ "" then
      let s := s.emit (.gitCloneBinder m.binder_branch_or_source_location.version
        m.binder_download_dir)
      { s with world := { s.world with binderSourcePresent := true } }
    else s
  let s := s.seq m.pybind11_installer._prepare
  s.seq m.llvm_installer._prepare

/-- `MasterBinderInstaller._install`: concatenate the pybind11 and llvm
environment contributions and write them newline-joined to `ENVFILE`. -/
def MasterBinderInstaller._install (m : MasterBinderInstaller) (s : RunSt) : RunSt :=
  let env_info_pybind := m.pybind11_installer._install
  let res := m.llvm_installer._install s
  res.1.seq (fun s => s.emit (.writeEnvfile m.envfile
    (String.intercalate "\n" (env_info_pybind ++ res.2))))

/-- `BaseInstaller.prepare` for the orchestrator. -/
def MasterBinderInstaller.prepare (m : MasterBinderInstaller) (s : RunSt) : RunSt :=
  s.seq m._prepare

/-- `BaseInstaller.install` for the orchestrator: `_prepare` then `_install`. -/
def MasterBinderInstaller.install (m : MasterBinderInstaller) (s : RunSt) : RunSt :=
  (s.seq m._prepare).seq m._install

end BuildPy

namespace MkBindings

/-! Embedding of `make_bindings_via_cmake.py` (the `lbuild`, non-containerized
path of `main`). -/

/-- One file of a project source tree: its path and its lines (as read by
`for line in fh`, shown here without the trailing newline, which
`line.strip()` would remove anyway). -/
structure SourceFile where
  name : String
  lines : List String
deriving DecidableEq

/-- One `--project-sources` entry: the directory path and the files its
recursive enumeration yields, in enumeration order. -/
abbrev ProjectTree := String × List SourceFile

/-- The glob patterns of `get_all_project_source_files`, in source order. -/
def sourceFilePatterns : List String := [".hpp", ".cpp", ".h", ".hh", ".cc", ".c"]

/-- `get_all_project_source_files`: per project-source directory, the files
matching each extension glob, concatenated in pattern order. -/
def get_all_project_source_files (project_sources : List ProjectTree) : List SourceFile :=
  project_sources.foldl (fun acc ps =>
    acc ++ sourceFilePatterns.foldl
      (fun a pat => a ++ ps.2.filter (fun f => pyEndswith f.name pat)) []) []

/-- Does the file name match one of the fixed source-extension globs? -/
def hasSourcePattern (name : String) : Bool :=
  sourceFilePatterns.any (fun pat => pyEndswith name pat)

/-- The per-line test of `make_and_write_all_includes`: the raw line starts
with `#include` and contains none of the ignore substrings. -/
def includeLineKept (include_line_ignore_words : List String) (line : String) : Bool :=
  pyStartswith line "#include" && !(include_line_ignore_words.any (fun x => pyIn x line))

/-- The stripped include lines collected from one file, in line order. -/
def fileIncludeLines (include_line_ignore_words : List String) (f : SourceFile) : List String :=
  (f.lines.filter (includeLineKept include_line_ignore_words)).map pyStrip

/-- The `all_includes` accumulator of `make_and_write_all_includes` just before
deduplication: all kept lines in file order, then line order. -/
def collectIncludes (all_project_source_files : List SourceFile)
    (include_line_ignore_words : List String) : List String :=
  all_project_source_files.foldl
    (fun acc f => acc ++ fileIncludeLines include_line_ignore_words f) []

/-- `make_and_write_all_includes`: dedupe via set semantics, then sort
(the written line list). -/
def make_and_write_all_includes (all_project_source_files : List SourceFile)
    (include_line_ignore_words : List String) : List String :=
  List.insertionSort strLe
    (collectIncludes all_project_source_files include_line_ignore_words).dedup

/-- The bytes written to the all-includes file: each line followed by a
newline. -/
def allIncludesFileContent (all_project_source_files : List SourceFile)
    (include_line_ignore_words : List String) : String :=
  String.join ((make_and_write_all_includes all_project_source_files
    include_line_ignore_words).map (fun l => l ++ "\n"))

/-- One observable action of the generation pipeline. -/
inductive GEv where
  | runPreinstall (script : String)
  | deleteOutputDir (dir : String)
  | mkdirOutputDir (dir : String)
  | writeAllIncludes (path content : String)
  | runBinder (command : String)
  | writeCMakeListsFile (lines : List String)
  | cmakeConfigure (cwd : String) (exitCode : Int)
  | ninjaBuild (cwd : String) (exitCode : Int)
  | importModule (name : String)
deriving DecidableEq

/-- Is the event part of the compile-and-verify step (`compile_sources`)? -/
def GEv.isCompileStep : GEv → Bool
  | .writeCMakeListsFile _ => true
  | .cmakeConfigure _ _ => true
  | .ninjaBuild _ _ => true
  | .importModule _ => true
  | _ => false

/-- Generation-pipeline run state: trace plus pending raised error. -/
structure GRun where
  trace : List GEv
  err : Option String
deriving DecidableEq

def GRun.emit (s : GRun) (e : GEv) : GRun := { s with trace := s.trace ++ [e] }

def GRun.fail (s : GRun) (msg : String) : GRun := { s with err := some msg }

def GRun.seq (s : GRun) (f : GRun → GRun) : GRun := if s.err.isSome then s else f s

/-- The binder invocation assembled in `make_bindings_code`. -/
def binderCommand (binder_executable python_module_name bindings_dir
    extra_binder_flags config_file all_includes_fn : String)
    (extra_source_directories : List String) : String :=
  binder_executable ++ " --root-module " ++ python_module_name ++
  " --prefix " ++ bindings_dir ++ " " ++ extra_binder_flags ++
  " --config " ++ config_file ++ " " ++ all_includes_fn ++ " -- -std=c++11 " ++
  String.intercalate " " (extra_source_directories.map (fun x => "-I" ++ x)) ++
  " -DNDEBUG -v"

/-- The error message raised on a duplicated manifest entry. -/
def duplicatedSourceMsg : String :=
  "WARNING - DUPLICATED SOURCE - DO NOT NAME YOUR MODULE THE SAME AS ONE OF YOUR NAMESPACES/CLASSES"

/-- The manifest-reading loop of `make_bindings_code`: strip each line, raise
on the first line whose stripped form was already collected, else append. -/
def readSourcesLoop (acc : List String) : List String → Except String (List String)
  | [] => Except.ok acc
  | line :: rest =>
    if pyStrip line ∈ acc then Except.error duplicatedSourceMsg
    else readSourcesLoop (acc ++ [pyStrip line]) rest

/-- `make_bindings_code`: run binder (its exit status IS checked), then read
the `<module>.sources` manifest through `readSourcesLoop`. -/
def make_bindings_code (binder_executable all_includes_fn bindings_dir
    python_module_name : String) (extra_source_directories : List String)
    (extra_binder_flags config_file : String) (binderExit : Int)
    (manifestLines : List String) (s : GRun) : GRun × List String :=
  let command := binderCommand binder_executable python_module_name bindings_dir
    extra_binder_flags config_file all_includes_fn extra_source_directories
  let s := s.emit (.runBinder command)
  if binderExit ≠ 0 then (s.fail ("Bad command return " ++ command), [])
  else
    match readSourcesLoop [] manifestLines with
    | Except.error msg => (s.fail msg, [])
    | Except.ok srcs => (s, srcs)

/-- `Path(fn).suffix` for ordinary file names (a final extension after a dot
in the last path component; hidden files like `.bashrc` have no suffix). -/
def pathSuffix (fn : String) : String :=
  let name := (fn.splitOn "/").getLastD ""
  match name.splitOn "." with
  | [] => ""
  | [_] => ""
  | ["", _] => ""
  | parts => "." ++ parts.getLastD ""

/-- The `source_lib_name` of `compile_sources`:
`str(source_fn).replace("/", "_").replace(".", "_")`. -/
def sourceLibName (source_fn : String) : String :=
  replaceChar (replaceChar source_fn '/' '_') '.' '_'

/-- The `CMakeLists.txt` lines synthesized by `compile_sources`: a header with
the pybind11 subproject, one position-independent static library per foreign
(`c`-suffixed) project source, and one aggregate module target linking them. -/
def cmakeListsLines (module_name pybind11_source : String)
    (directories_to_include : List String) (sources_to_compile : List String)
    (all_project_source_files : List SourceFile) : List String :=
  let header := ["cmake_minimum_required(VERSION 3.4...3.18)",
    "project(" ++ module_name ++ ")",
    "add_subdirectory(\"" ++ pybind11_source ++ "\" \"$\x7bCMAKE_CURRENT_BINARY_DIR\x7d/pybind11_build\")",
    ""]
  let libLines := all_project_source_files.flatMap (fun f =>
    if pyIn "c" (pathSuffix f.name) then
      ["add_library(" ++ sourceLibName f.name ++ " STATIC $\x7bCMAKE_SOURCE_DIR\x7d/" ++ f.name ++ ")",
       "set_target_properties(" ++ sourceLibName f.name ++ " PROPERTIES POSITION_INDEPENDENT_CODE ON)",
       "target_include_directories(" ++ sourceLibName f.name ++ " PRIVATE " ++
         String.intercalate " " directories_to_include ++ ")"]
    else [])
  let tolink := (all_project_source_files.filter
    (fun f => pyIn "c" (pathSuffix f.name))).map (fun f => sourceLibName f.name)
  let sources_for_cmake := sources_to_compile.map
    (fun x => "$\x7bCMAKE_CURRENT_BINARY_DIR\x7d/" ++ x)
  header ++ libLines ++
    ["pybind11_add_module(" ++ module_name ++ " MODULE " ++
       String.intercalate " " sources_for_cmake ++ ")",
     "target_include_directories(" ++ module_name ++ " PRIVATE " ++
       String.intercalate " " directories_to_include ++ ")",
     "set_target_properties(" ++ module_name ++ " PROPERTIES POSITION_INDEPENDENT_CODE ON)",
     "target_link_libraries(" ++ module_name ++ " PRIVATE " ++
       String.intercalate " " tolink ++ ")"]

/-- `compile_sources`: write `CMakeLists.txt`, run the cmake configure step and
the ninja build step — the code calls `subprocess.run` for both WITHOUT
inspecting the returncode — and then import the module as a smoke test. The
two exit statuses are therefore inputs that are only recorded. -/
def compile_sources (cmakeExit ninjaExit : Int) (sources_to_compile : List String)
    (bindings_dir module_name : String) (directories_to_include : List String)
    (pybind11_source : String) (all_project_source_files : List SourceFile)
    (s : GRun) : GRun :=
  let s := s.emit (.writeCMakeListsFile (cmakeListsLines module_name pybind11_source
    directories_to_include sources_to_compile all_project_source_files))
  let s := s.emit (.cmakeConfigure bindings_dir cmakeExit)
  let s := s.emit (.ninjaBuild bindings_dir ninjaExit)
  s.emit (.importModule module_name)

/-- The `lbuild` command-line arguments consumed by `main`. -/
structure GenArgs where
  output_directory : String
  module_name : String
  project_sources : List ProjectTree
  source_directories_to_include : List String
  config_file : String
  extra_binder_flags : String
  include_line_ignore_words : List String
  preinstall_script : String
  custom_all_includes_file : String
  pybind11_source : String
  binder_executable : String
deriving DecidableEq

/-- The environment of one generation run: `get_python_inc()`, the generator
exit status, the manifest the generator wrote, and the exit statuses of the
build tool's configure and build steps. -/
structure GenEnv where
  python_inc : String
  binderExit : Int
  manifestLines : List String
  cmakeExit : Int
  ninjaExit : Int
deriving DecidableEq

/-- The `extra_source_directories` list computed in `main` (`Path.resolve` is
modelled as the identity). -/
def extraSourceDirectories (a : GenArgs) (env : GenEnv) : List String :=
  (a.project_sources.map (fun p => p.1)) ++ [env.python_inc, "pybind11/include"] ++
    a.source_directories_to_include

/-- `main` on the `lbuild` path: optional preinstall script, recursive delete
and recreation of the output directory, include-closure collection (unless a
custom file is supplied), generator invocation + manifest validation, then
compile-and-verify. -/
def mainRun (a : GenArgs) (env : GenEnv) : GRun :=
  let s : GRun := ⟨[], none⟩
  let s := if a.preinstall_script ≠ "" then s.emit (.runPreinstall a.preinstall_script) else s
  let s := s.emit (.deleteOutputDir a.output_directory)
  let s := s.emit (.mkdirOutputDir a.output_directory)
  let all_files := get_all_project_source_files a.project_sources
  let all_includes_fn := if a.custom_all_includes_file ≠ "" then a.custom_all_includes_file
    else a.output_directory ++ "/all_includes.hpp"
  let s := if a.custom_all_includes_file ≠ "" then s
    else s.emit (.writeAllIncludes all_includes_fn
      (allIncludesFileContent all_files a.include_line_ignore_words))
  let res := make_bindings_code a.binder_executable all_includes_fn a.output_directory
    a.module_name (extraSourceDirectories a env) a.extra_binder_flags a.config_file
    env.binderExit env.manifestLines s
  res.1.seq (compile_sources env.cmakeExit env.ninjaExit res.2 a.output_directory
    a.module_name (extraSourceDirectories a env) a.pybind11_source all_files)

end MkBindings

/-- Is an `Except` result a success? -/
def exOk {ε α : Type} : Except ε α → Bool
  | Except.ok _ => true
  | Except.error _ => false

/-! Concrete fixtures used to evaluate the code at specific inputs. -/

def c1_mbi : BuildPy.MasterBinderInstaller :=
  ⟨⟨"master", ""⟩, ⟨"llvmorg-13.0.1", ""⟩,
   ⟨"32c4d7e17f267e10e71138a78d559b1eef17c909", ""⟩, "/build",
   ⟨"clang", "Release", "clang", "clang++"⟩, 8⟩

def c1_world : BuildPy.World := ⟨false, false, false, true⟩

/-- The bytes `build.py` actually writes to `/build/ENVFILE` for `c1_mbi`:
the two `LLVM_*` lines are the un-interpolated literals from line 318. -/
def c1_envContent : String :=
  "PYBIND11_INCLUDE_DIR=/build/pybind11/include\nPYBIND11_SHA=32c4d7e17f267e10e71138a78d559b1eef17c909\nLLVM_BIN_DIR=\x7bself.build_bin_dir\x7d\nLLVM_VERSION=\x7bself.version\x7d"

def c4_mbi : BuildPy.MasterBinderInstaller :=
  ⟨⟨"master", ""⟩, ⟨"llvmorg-13.0.1", ""⟩,
   ⟨"32c4d7e17f267e10e71138a78d559b1eef17c909", ""⟩, "/bld",
   ⟨"gcc", "Release", "gcc", "g++"⟩, 4⟩

def c4_world : BuildPy.World := ⟨false, false, false, true⟩

def c9_mbi : BuildPy.MasterBinderInstaller :=
  ⟨⟨"master", ""⟩, ⟨"llvmorg-13.0.1", ""⟩,
   ⟨"32c4d7e17f267e10e71138a78d559b1eef17c909", ""⟩, "/b9",
   ⟨"clang", "Release", "clang", "clang++"⟩, 2⟩

def c9_world : BuildPy.World := ⟨false, false, true, true⟩

def c3_args : MkBindings.GenArgs :=
  ⟨"/out", "m", [], [], "/cfg", "", [], "", "", "/pyb", "binder"⟩

def c3_env : MkBindings.GenEnv := ⟨"/pyinc", 0, ["m.cpp"], 1, 0⟩

def c5_args : MkBindings.GenArgs :=
  ⟨"/out5", "m5", [], [], "/cfg", "", [], "", "", "/pyb", "binder"⟩

def c5_env : MkBindings.GenEnv := ⟨"/pyinc", 0, ["dup.cpp", "dup.cpp"], 0, 0⟩

/-! ## Helper lemmas -/

theorem pyStrLeList_total : ∀ as bs, pyStrLeList as bs = true ∨ pyStrLeList bs as = true
  | [], _ => .inl rfl
  | _ :: _, [] => .inr rfl
  | a :: as, b :: bs => by
    by_cases h : a = b
    · subst h
      simpa [pyStrLeList] using pyStrLeList_total as bs
    · rcases lt_or_gt_of_ne h with hlt | hgt
      · left; simp [pyStrLeList, h, hlt]
      · right; simp [pyStrLeList, Ne.symm h, hgt]

theorem pyStrLeList_trans : ∀ as bs cs, pyStrLeList as bs = true → pyStrLeList bs cs = true →
    pyStrLeList as cs = true
  | [], _, _ => by intro _ _; rfl
  | _ :: _, [], _ => by intro h _; simp [pyStrLeList] at h
  | _ :: _, _ :: _, [] => by intro _ h; simp [pyStrLeList] at h
  | a :: as, b :: bs, c :: cs => by
    intro h1 h2
    by_cases hab : a = b
    · subst hab
      by_cases hac : a = c
      · subst hac
        simp [pyStrLeList] at h1 h2 ⊢
        exact pyStrLeList_trans as bs cs h1 h2
      · simp [pyStrLeList, hac] at h2 ⊢
        simpa [pyStrLeList, hac] using h2
    · by_cases hbc : b = c
      · subst hbc
        simpa [pyStrLeList, hab] using h1
      · simp [pyStrLeList, hab] at h1
        simp [pyStrLeList, hbc] at h2
        have hlt : a < c := lt_trans h1 h2
        by_cases hac : a = c
        · exact absurd (hac ▸ hlt) (lt_irrefl _)
        · simp [pyStrLeList, hac, hlt]

theorem pyStrLeList_antisymm : ∀ as bs, pyStrLeList as bs = true → pyStrLeList bs as = true →
    as = bs
  | [], [] => by intro _ _; rfl
  | [], _ :: _ => by intro _ h; simp [pyStrLeList] at h
  | _ :: _, [] => by intro h _; simp [pyStrLeList] at h
  | a :: as, b :: bs => by
    intro h1 h2
    by_cases hab : a = b
    · subst hab
      simp [pyStrLeList] at h1 h2
      rw [pyStrLeList_antisymm as bs h1 h2]
    · simp [pyStrLeList, hab] at h1
      simp [pyStrLeList, Ne.symm hab] at h2
      exact absurd (lt_trans h1 h2) (lt_irrefl _)

instance : IsTotal String strLe := ⟨fun a b => pyStrLeList_total a.data b.data⟩

instance : IsTrans String strLe := ⟨fun a b c => pyStrLeList_trans a.data b.data c.data⟩

instance : IsAntisymm String strLe :=
  ⟨fun a b h1 h2 => by
    cases a; cases b
    exact congrArg String.mk (pyStrLeList_antisymm _ _ h1 h2)⟩

/-- Folding append of per-element contributions is `flatMap`. -/
theorem foldl_append_eq_flatMap {α β : Type} (f : α → List β) :
    ∀ (l : List α) (acc : List β), l.foldl (fun a x => a ++ f x) acc = acc ++ l.flatMap f
  | [], acc => by simp
  | x :: t, acc => by
    simp [foldl_append_eq_flatMap f t (acc ++ f x), List.append_assoc]

/-! ## Claim theorems -/

/-- Claim C6: constructing a `VersionOrSourceLocation` succeeds exactly when
exactly one of the pinned version and the local source path is non-empty;
when both are set, or neither is, the constructor raises. -/
theorem c6_version_or_source_location_validation :
    ∀ version source_location : String,
    exOk (BuildPy.VersionOrSourceLocation.mk? version source_location) = true ↔
      ((version ≠ "" ∧ source_location = "") ∨ (version = "" ∧ source_location ≠ "")) := by
  intro v s
  unfold BuildPy.VersionOrSourceLocation.mk?
  by_cases hv : v = "" <;> by_cases hs : s = "" <;> simp [hv, hs, exOk]

/-- Claim C2: `LLVMInstall._install` performs, in this exact order: the cmake
configure with the caller-supplied compiler pair, the ninja build, the ninja
install of the curated target subset, the ldconfig registration of the new
runtime library path, and then a second configure/build/install in the fresh
build directory `build_dir + "2"` with the compiler pair forced to
`clang`/`clang++`. -/
theorem c2_llvm_install_two_pass_order :
    ∀ (l : BuildPy.LLVMInstall) (w : BuildPy.World),
    (BuildPy.LLVMInstall._install l ⟨w, [], none⟩).1.trace =
      [.cmakeConfigure l.build_dir
         (BuildPy.llvmCmakeBaseCommand l.build_dir l.compiler.cmake_extra_commands),
       .ninjaRun l.build_dir ("ninja -j " ++ toString l.install_cpus),
       .ninjaRun l.build_dir
         ("ninja install-clang-resource-headers install-cxx install-cxxabi install-clang tools/clang/tools/extra/binder/install install-clang-headers  -j " ++
           toString l.install_cpus),
       .mkdirLdconf "/etc/ld.so.conf.d",
       .writeLdconf "/etc/ld.so.conf.d/libc2.conf" "/usr/local/lib/x86_64-unknown-linux-gnu",
       .runLdconfig l.build_dir,
       .cmakeConfigure (l.build_dir ++ "2")
         (BuildPy.llvmCmakeBaseCommand (l.build_dir ++ "2")
           (BuildPy.cmake_extra_commands_from_known_compiler_paths "clang" "clang++"
             l.compiler.build_mode)),
       .ninjaRun (l.build_dir ++ "2") ("ninja -j " ++ toString l.install_cpus),
       .ninjaRun (l.build_dir ++ "2")
         ("ninja install-clang-resource-headers install-cxx install-cxxabi install-clang tools/clang/tools/extra/binder/install install-clang-headers  -j " ++
           toString l.install_cpus)] ∧
    l.build_dir ++ "2" ≠ l.build_dir ∧
    (BuildPy.LLVMInstall._install l ⟨w, [], none⟩).1.err = none := by
  intro l w
  refine ⟨rfl, ?_, rfl⟩
  intro h
  have h2 := congrArg String.length h
  rw [String.length_append] at h2
  have h1 : ("2" : String).length = 1 := rfl
  rw [h1] at h2
  omega

/-- Claim C3 (code bug): in `compile_sources` the exit statuses of the build
tool's configure and build steps are NOT inspected — with a failing configure
(exit 1) the run raises no error and still reaches the module-import smoke
test, both for `compile_sources` alone and for the whole `main` pipeline. -/
theorem c3_compile_sources_ignores_exit_status :
    (MkBindings.compile_sources 1 0 ["m.cpp"] "/out" "m" ["/proj"] "/pyb" [] ⟨[], none⟩).err
        = none ∧
    (MkBindings.compile_sources 1 0 ["m.cpp"] "/out" "m" ["/proj"] "/pyb" [] ⟨[], none⟩).trace =
      [.writeCMakeListsFile (MkBindings.cmakeListsLines "m" "/pyb" ["/proj"] ["m.cpp"] []),
       .cmakeConfigure "/out" 1, .ninjaBuild "/out" 0, .importModule "m"] ∧
    (MkBindings.mainRun c3_args c3_env).err = none ∧
    MkBindings.GEv.importModule "m" ∈ (MkBindings.mainRun c3_args c3_env).trace := by
  refine ⟨rfl, rfl, by decide, by decide⟩

set_option maxRecDepth 10000 in
/-- Claim C4 (code bug): calling `MasterBinderInstaller.prepare` a second time
after a successful first call re-runs the binder `git clone` network step —
the second call is not a no-op (the underlying clone then fails because the
destination already exists). -/
theorem c4_master_prepare_repeats_network_step :
    (BuildPy.MasterBinderInstaller.prepare c4_mbi ⟨c4_world, [], none⟩).err = none ∧
    (BuildPy.MasterBinderInstaller.prepare c4_mbi
        (BuildPy.MasterBinderInstaller.prepare c4_mbi ⟨c4_world, [], none⟩)).err = none ∧
    ((BuildPy.MasterBinderInstaller.prepare c4_mbi ⟨c4_world, [], none⟩).trace.filter
        BuildPy.Ev.isGitCloneBinder).length = 1 ∧
    ((BuildPy.MasterBinderInstaller.prepare c4_mbi
        (BuildPy.MasterBinderInstaller.prepare c4_mbi ⟨c4_world, [], none⟩)).trace.filter
        BuildPy.Ev.isGitCloneBinder).length = 2 ∧
    (BuildPy.MasterBinderInstaller.prepare c4_mbi
        (BuildPy.MasterBinderInstaller.prepare c4_mbi ⟨c4_world, [], none⟩)).trace =
      (BuildPy.MasterBinderInstaller.prepare c4_mbi ⟨c4_world, [], none⟩).trace ++
        [.gitCloneBinder "master" "/bld/binder"] := by
  refine ⟨by decide, by decide, by decide, by decide, by decide⟩

set_option maxRecDepth 10000 in
/-- Claim C1 (code bug): a successful orchestrator run writes the ENVFILE with
each installer's returned lines exactly once and in order — but the two LLVM
lines are the UN-interpolated literals `LLVM_BIN_DIR={self.build_bin_dir}` and
`LLVM_VERSION={self.version}` (the `return` on line 318 of `build.py` is not
an f-string), so the toolchain's actual binary-directory path never appears in
the file. -/
theorem c1_envfile_contains_literal_llvm_values :
    (BuildPy.MasterBinderInstaller.install c1_mbi ⟨c1_world, [], none⟩).err = none ∧
    (BuildPy.MasterBinderInstaller.install c1_mbi ⟨c1_world, [], none⟩).trace.getLast? =
      some (.writeEnvfile "/build/ENVFILE" c1_envContent) ∧
    c1_envContent =
      String.intercalate "\n"
        (BuildPy.Pybind11Installer._install c1_mbi.pybind11_installer ++
          ["LLVM_BIN_DIR=\x7bself.build_bin_dir\x7d", "LLVM_VERSION=\x7bself.version\x7d"]) ∧
    c1_mbi.llvm_installer.build_bin_dir = "/build/llvm-project/build/bin" ∧
    pyIn ("LLVM_BIN_DIR=" ++ c1_mbi.llvm_installer.build_bin_dir) c1_envContent = false ∧
    pyIn "LLVM_BIN_DIR=\x7bself.build_bin_dir\x7d" c1_envContent = true := by
  refine ⟨by decide, by decide, by decide, by decide, by decide, by decide⟩

theorem readSourcesLoop_ok : ∀ (ls acc : List String), (acc ++ ls.map pyStrip).Nodup →
    MkBindings.readSourcesLoop acc ls = Except.ok (acc ++ ls.map pyStrip)
  | [], acc => by simp [MkBindings.readSourcesLoop]
  | l :: rest, acc => by
    intro h
    simp only [List.map_cons] at h
    have hmem : pyStrip l ∉ acc := by
      intro hin
      rcases List.nodup_append.mp h with ⟨-, -, hdisj⟩
      exact hdisj hin (List.mem_cons_self _ _)
    have h2 : ((acc ++ [pyStrip l]) ++ rest.map pyStrip).Nodup := by
      rwa [List.append_assoc, List.singleton_append]
    simp only [MkBindings.readSourcesLoop, hmem, if_false, List.map_cons]
    rw [readSourcesLoop_ok rest (acc ++ [pyStrip l]) h2, List.append_assoc,
      List.singleton_append]

theorem readSourcesLoop_error : ∀ (ls acc : List String), acc.Nodup →
    ¬ (acc ++ ls.map pyStrip).Nodup →
    MkBindings.readSourcesLoop acc ls = Except.error MkBindings.duplicatedSourceMsg
  | [], acc => by
    intro h hn
    exact absurd (by simpa using h) hn
  | l :: rest, acc => by
    intro h hn
    by_cases hmem : pyStrip l ∈ acc
    · simp [MkBindings.readSourcesLoop, hmem]
    · have hacc : (acc ++ [pyStrip l]).Nodup := by
        rw [List.nodup_append]
        refine ⟨h, List.nodup_singleton _, ?_⟩
        intro a ha hb
        rw [List.mem_singleton] at hb
        exact hmem (hb ▸ ha)
      have hn2 : ¬ ((acc ++ [pyStrip l]) ++ rest.map pyStrip).Nodup := by
        intro hcon
        apply hn
        simpa [List.append_assoc, List.singleton_append] using hcon
      simp only [MkBindings.readSourcesLoop, hmem, if_false]
      exact readSourcesLoop_error rest (acc ++ [pyStrip l]) hacc hn2

/-- Claim C5: a generated-source manifest whose stripped lines contain a
duplicate makes `make_bindings_code` raise the fatal duplicated-source error,
and the pipeline run then never reaches any compile step; on a duplicate-free
manifest the read returns exactly the stripped lines, with no silent
deduplication. -/
theorem c5_duplicate_manifest_is_fatal :
    (∀ (a : MkBindings.GenArgs) (env : MkBindings.GenEnv),
      ¬ (env.manifestLines.map pyStrip).Nodup →
      MkBindings.readSourcesLoop [] env.manifestLines =
          Except.error MkBindings.duplicatedSourceMsg ∧
      (MkBindings.mainRun a env).err.isSome = true ∧
      (MkBindings.mainRun a env).trace.all (fun e => !e.isCompileStep) = true) ∧
    (∀ ls : List String, (ls.map pyStrip).Nodup →
      MkBindings.readSourcesLoop [] ls = Except.ok (ls.map pyStrip)) := by
  constructor
  · intro a env h
    have herr := readSourcesLoop_error env.manifestLines [] List.nodup_nil (by simpa using h)
    refine ⟨herr, ?_, ?_⟩ <;>
    · by_cases hpre : a.preinstall_script = "" <;>
      by_cases hcust : a.custom_all_includes_file = "" <;>
      by_cases hbex : env.binderExit = 0 <;>
      simp [MkBindings.mainRun, MkBindings.make_bindings_code, herr, MkBindings.GRun.seq,
        MkBindings.GRun.emit, MkBindings.GRun.fail, hpre, hcust, hbex,
        MkBindings.GEv.isCompileStep]
  · intro ls h
    simpa using readSourcesLoop_ok ls [] (by simpa using h)

/-- Witness for C5 at concrete inputs: the manifest `["dup.cpp", "dup.cpp"]`
aborts the pipeline, and the manifest `["a", "b"]` is read back verbatim. -/
theorem c5_duplicate_manifest_is_fatal_witness :
    (MkBindings.mainRun c5_args c5_env).err.isSome = true ∧
    MkBindings.readSourcesLoop [] ["a", "b"] = Except.ok ["a", "b"] := by
  refine ⟨(c5_duplicate_manifest_is_fatal.1 c5_args c5_env (by decide)).2.1, ?_⟩
  have h := c5_duplicate_manifest_is_fatal.2 ["a", "b"] (by decide)
  simpa using h

theorem collectIncludes_eq_flatMap (fs : List MkBindings.SourceFile) (ig : List String) :
    MkBindings.collectIncludes fs ig = fs.flatMap (MkBindings.fileIncludeLines ig) := by
  unfold MkBindings.collectIncludes
  simpa using foldl_append_eq_flatMap (MkBindings.fileIncludeLines ig) fs []

/-- Claim C7: the include-closure output is byte-identical for any two
enumerations of the same set of project source files — collection, set
deduplication and sorting are invariant under permutation of the input
file list. -/
theorem c7_include_closure_deterministic :
    ∀ (files1 files2 : List MkBindings.SourceFile) (ig : List String),
    files1.Perm files2 →
    MkBindings.allIncludesFileContent files1 ig = MkBindings.allIncludesFileContent files2 ig := by
  intro f1 f2 ig hp
  suffices hs : MkBindings.make_and_write_all_includes f1 ig =
      MkBindings.make_and_write_all_includes f2 ig by
    unfold MkBindings.allIncludesFileContent
    rw [hs]
  unfold MkBindings.make_and_write_all_includes
  have hdedup : (MkBindings.collectIncludes f1 ig).dedup.Perm
      (MkBindings.collectIncludes f2 ig).dedup := by
    rw [collectIncludes_eq_flatMap, collectIncludes_eq_flatMap]
    exact (List.Perm.flatMap_right (MkBindings.fileIncludeLines ig) hp).dedup
  exact List.eq_of_perm_of_sorted
    ((List.perm_insertionSort strLe _).trans
      (hdedup.trans (List.perm_insertionSort strLe _).symm))
    (List.sorted_insertionSort strLe _) (List.sorted_insertionSort strLe _)

/-- Witness for C7: two concrete two-file enumerations of the same file set
give byte-identical include-closure output. -/
theorem c7_include_closure_deterministic_witness :
    ([⟨"a.hpp", ["#include <y>", "int x;"]⟩, ⟨"b.cpp", ["#include <x>"]⟩] :
        List MkBindings.SourceFile).Perm
      [⟨"b.cpp", ["#include <x>"]⟩, ⟨"a.hpp", ["#include <y>", "int x;"]⟩] ∧
    MkBindings.allIncludesFileContent
        [⟨"a.hpp", ["#include <y>", "int x;"]⟩, ⟨"b.cpp", ["#include <x>"]⟩] ["unstable"] =
      MkBindings.allIncludesFileContent
        [⟨"b.cpp", ["#include <x>"]⟩, ⟨"a.hpp", ["#include <y>", "int x;"]⟩] ["unstable"] :=
  ⟨by decide, c7_include_closure_deterministic _ _ ["unstable"] (by decide)⟩

theorem mem_get_all_project_source_files (dirs : List MkBindings.ProjectTree)
    (f : MkBindings.SourceFile) :
    f ∈ MkBindings.get_all_project_source_files dirs ↔
      ∃ d, d ∈ dirs ∧ f ∈ d.2 ∧ MkBindings.hasSourcePattern f.name = true := by
  unfold MkBindings.get_all_project_source_files
  rw [foldl_append_eq_flatMap (fun ps : MkBindings.ProjectTree =>
    MkBindings.sourceFilePatterns.foldl
      (fun a pat => a ++ ps.2.filter (fun f => pyEndswith f.name pat)) [])]
  simp only [List.nil_append, List.mem_flatMap]
  constructor
  · rintro ⟨d, hd, hf⟩
    rw [foldl_append_eq_flatMap (fun pat => d.2.filter (fun f => pyEndswith f.name pat))] at hf
    simp only [List.nil_append, List.mem_flatMap, List.mem_filter] at hf
    rcases hf with ⟨pat, hpat, hfd, hend⟩
    refine ⟨d, hd, hfd, ?_⟩
    unfold MkBindings.hasSourcePattern
    rw [List.any_eq_true]
    exact ⟨pat, hpat, hend⟩
  · rintro ⟨d, hd, hfd, hmatch⟩
    refine ⟨d, hd, ?_⟩
    rw [foldl_append_eq_flatMap (fun pat => d.2.filter (fun f => pyEndswith f.name pat))]
    unfold MkBindings.hasSourcePattern at hmatch
    rw [List.any_eq_true] at hmatch
    rcases hmatch with ⟨pat, hpat, hend⟩
    simp only [List.nil_append, List.mem_flatMap, List.mem_filter]
    exact ⟨pat, hpat, hfd, hend⟩

/-- Claim C8: the include-closure line list for the matched project source
files (the fixed extension set) is duplicate-free, sorted in Python's string
order, and contains exactly the stripped forms of the raw lines that start
with `#include` and contain no ignore substring. -/
theorem c8_include_closure_content :
    ∀ (dirs : List MkBindings.ProjectTree) (ig : List String),
    (MkBindings.make_and_write_all_includes
        (MkBindings.get_all_project_source_files dirs) ig).Nodup ∧
    List.Sorted strLe (MkBindings.make_and_write_all_includes
        (MkBindings.get_all_project_source_files dirs) ig) ∧
    ∀ s : String,
      s ∈ MkBindings.make_and_write_all_includes
          (MkBindings.get_all_project_source_files dirs) ig ↔
        ∃ d, d ∈ dirs ∧ ∃ f, f ∈ d.2 ∧ MkBindings.hasSourcePattern f.name = true ∧
          ∃ line, line ∈ f.lines ∧ pyStartswith line "#include" = true ∧
            (ig.any (fun x => pyIn x line)) = false ∧ s = pyStrip line := by
  intro dirs ig
  refine ⟨?_, List.sorted_insertionSort strLe _, ?_⟩
  · exact ((List.perm_insertionSort strLe _).symm).nodup (List.nodup_dedup _)
  · intro s
    unfold MkBindings.make_and_write_all_includes
    rw [List.mem_insertionSort, List.mem_dedup, collectIncludes_eq_flatMap,
      List.mem_flatMap]
    constructor
    · rintro ⟨f, hf, hline⟩
      unfold MkBindings.fileIncludeLines at hline
      simp only [List.mem_map, List.mem_filter, MkBindings.includeLineKept,
        Bool.and_eq_true, Bool.not_eq_true', List.any_eq_true] at hline
      rcases hline with ⟨line, ⟨hmem, hstart, hign⟩, hstrip⟩
      rcases (mem_get_all_project_source_files dirs f).mp hf with ⟨d, hd, hfd, hpat⟩
      exact ⟨d, hd, f, hfd, hpat, line, hmem, hstart, hign, hstrip.symm⟩
    · rintro ⟨d, hd, f, hfd, hpat, line, hmem, hstart, hign, hstrip⟩
      refine ⟨f, (mem_get_all_project_source_files dirs f).mpr ⟨d, hd, hfd, hpat⟩, ?_⟩
      unfold MkBindings.fileIncludeLines
      simp only [List.mem_map, List.mem_filter, MkBindings.includeLineKept,
        Bool.and_eq_true, Bool.not_eq_true', List.any_eq_true]
      exact ⟨line, ⟨hmem, hstart, hign⟩, hstrip.symm⟩


/-- Claim C10: on the non-containerized path, `main` deletes and recreates the
output directory right at the start — after at most the preinstall script, and
before any include collection, generator invocation, or compile step. -/
theorem c10_output_directory_reset_first :
    ∀ (a : MkBindings.GenArgs) (env : MkBindings.GenEnv),
    ∃ r, (MkBindings.mainRun a env).trace =
      (if a.preinstall_script ≠ "" then [MkBindings.GEv.runPreinstall a.preinstall_script]
        else []) ++
      [MkBindings.GEv.deleteOutputDir a.output_directory,
       MkBindings.GEv.mkdirOutputDir a.output_directory] ++ r := by
  intro a env
  by_cases hpre : a.preinstall_script = "" <;>
  by_cases hcust : a.custom_all_includes_file = "" <;>
  by_cases hbex : env.binderExit = 0 <;>
  rcases hm : MkBindings.readSourcesLoop [] env.manifestLines with msg | srcs <;>
  · simp only [MkBindings.mainRun, MkBindings.make_bindings_code, MkBindings.compile_sources,
      MkBindings.GRun.emit, MkBindings.GRun.fail, MkBindings.GRun.seq, hpre, hcust, hbex, hm,
      ne_eq, not_true_eq_false, not_false_eq_true, if_true, if_false, ite_true, ite_false,
      ite_not, Option.isSome_some, Option.isSome_none, Bool.false_eq_true, List.nil_append,
      List.append_assoc, List.cons_append, List.singleton_append]
    exact ⟨_, rfl⟩

/-- Claim C9: in an orchestrator run that materializes the toolchain tree
(the tree is absent initially), the binder generator sources are staged —
`shutil.copytree` into `clang-tools-extra` — strictly before any cmake
configure event; on success a configure does happen; and in local-source mode
a missing binder source tree aborts preparation before any configure. -/
theorem c9_generator_staged_before_configure :
    ∀ (m : BuildPy.MasterBinderInstaller) (w : BuildPy.World),
    w.llvmTreePresent = false →
    ((BuildPy.MasterBinderInstaller.install m ⟨w, [], none⟩).trace.any
        BuildPy.Ev.isCmakeConfigure = true →
      ((BuildPy.MasterBinderInstaller.install m ⟨w, [], none⟩).trace.takeWhile
        (fun e => !e.isCmakeConfigure)).any BuildPy.Ev.isStageBinderSources = true) ∧
    ((BuildPy.MasterBinderInstaller.install m ⟨w, [], none⟩).err = none →
      (BuildPy.MasterBinderInstaller.install m ⟨w, [], none⟩).trace.any
        BuildPy.Ev.isCmakeConfigure = true) ∧
    (m.binder_branch_or_source_location.version = "" → w.binderSourcePresent = false →
      (BuildPy.MasterBinderInstaller.install m ⟨w, [], none⟩).err.isSome = true ∧
      (BuildPy.MasterBinderInstaller.install m ⟨w, [], none⟩).trace.all
        (fun e => !e.isCmakeConfigure) = true) := by
  intro m w hw
  by_cases hbv : m.binder_branch_or_source_location.version = "" <;>
  by_cases hpi : w.pybindIncludePresent <;>
  by_cases hps : m.pybind11_sha_or_source_location.source_location = "" <;>
  by_cases hpa : w.pybindIncludeAfterFetch <;>
  by_cases hbs : w.binderSourcePresent <;>
  by_cases hls : m.llvm_version_or_source_location.source_location = "" <;>
  · simp [BuildPy.MasterBinderInstaller.install, BuildPy.MasterBinderInstaller._prepare,
      BuildPy.MasterBinderInstaller._install, BuildPy.MasterBinderInstaller.pybind11_installer,
      BuildPy.MasterBinderInstaller.llvm_installer, BuildPy.Pybind11Installer._prepare,
      BuildPy.Pybind11Installer._install, BuildPy.LLVMInstall._prepare,
      BuildPy.LLVMInstall._install, BuildPy.LLVMInstall.make,
      BuildPy.LLVMInstall._run_llvm_cmake_base_command,
      BuildPy.LLVMInstall._run_ninja_build_and_install_command,
      BuildPy.LLVMInstall._setup_ldconfig_path, BuildPy.RunSt.seq, BuildPy.RunSt.emit,
      BuildPy.RunSt.fail, hw, hbv, hpi, hps, hpa, hbs, hls, BuildPy.Ev.isCmakeConfigure,
      BuildPy.Ev.isStageBinderSources, List.takeWhile, List.any, List.all]

/-- Witness for C9 at a concrete orchestrator and fresh world: the staging
event does occur before the first configure event. -/
theorem c9_generator_staged_before_configure_witness :
    ((BuildPy.MasterBinderInstaller.install c9_mbi ⟨c9_world, [], none⟩).trace.takeWhile
      (fun e => !e.isCmakeConfigure)).any BuildPy.Ev.isStageBinderSources = true :=
  (c9_generator_staged_before_configure c9_mbi c9_world rfl).1 (by decide)

/-- Instantiation of C2 at a concrete installer: the second pass uses a build
directory distinct from the first. -/
theorem c2_llvm_install_two_pass_order_witness :
    (BuildPy.LLVMInstall.make ⟨"v", ""⟩ ⟨"clang", "Release", "clang", "clang++"⟩
      "/bsrc" "/base" "build" 2).build_dir ++ "2" ≠
    (BuildPy.LLVMInstall.make ⟨"v", ""⟩ ⟨"clang", "Release", "clang", "clang++"⟩
      "/bsrc" "/base" "build" 2).build_dir :=
  (c2_llvm_install_two_pass_order
    (BuildPy.LLVMInstall.make ⟨"v", ""⟩ ⟨"clang", "Release", "clang", "clang++"⟩
      "/bsrc" "/base" "build" 2) ⟨true, true, true, true⟩).2.1

/-- Instantiation of C6 at concrete inputs: a version-only spec constructs
successfully. -/
theorem c6_version_or_source_location_validation_witness :
    exOk (BuildPy.VersionOrSourceLocation.mk? "v1" "") = true :=
  (c6_version_or_source_location_validation "v1" "").mpr (Or.inl ⟨by decide, rfl⟩)

/-- Instantiation of C8 at a concrete project tree: the produced line list is
duplicate-free. -/
theorem c8_include_closure_content_witness :
    (MkBindings.make_and_write_all_includes
      (MkBindings.get_all_project_source_files
        [("p", [⟨"x.hpp", ["#include <a>"]⟩])]) []).Nodup :=
  (c8_include_closure_content [("p", [⟨"x.hpp", ["#include <a>"]⟩])] []).1

/-- Instantiation of C10 at concrete arguments. -/
theorem c10_output_directory_reset_first_witness :
    ∃ r, (MkBindings.mainRun ⟨"/o", "m", [], [], "/c", "", [], "", "", "/p", "binder"⟩
        ⟨"/pi", 0, [], 0, 0⟩).trace =
      (if ("" : String) ≠ "" then [MkBindings.GEv.runPreinstall ""] else []) ++
      [MkBindings.GEv.deleteOutputDir "/o", MkBindings.GEv.mkdirOutputDir "/o"] ++ r :=
  c10_output_directory_reset_first ⟨"/o", "m", [], [], "/c", "", [], "", "", "/p", "binder"⟩
    ⟨"/pi", 0, [], 0, 0⟩
